import Mathlib

/-!
Verification of the RV-3028-C7 RTC driver (register access and state-encoding
layer).  The Rust source in `src/lib.rs` is shallowly embedded below:

* the BCD codec `bin_to_bcd` / `bcd_to_bin` becomes a pair of `Nat` functions
  (u8 values are `Nat`s below 256);
* the periodic-countdown-timer selection `pct_ticks_and_rate_for_duration`
  becomes a pure function on a duration measured in whole microseconds
  (`Int`, mirroring chrono's i64 arithmetic; Rust's `/` and `%` on i64
  truncate toward zero, so `Int.tdiv` / `Int.tmod` are used);
* register read-modify-write helpers and the alarm engine become explicit
  state passing over a record of 8-bit register values;
* fallible operations (Rust `unwrap` panics) return `Option`;
* I2C bus traffic is modelled as the list of write transactions
  `(device address, bytes)` a call issues, in order.
-/

namespace RV3028

/-- The fixed 7-bit i2c address of the device: `0xA4 >> 1`. -/
def RV3028_ADDRESS : Nat := 0xA4 >>> 1

def REG_SECONDS : Nat := 0x00
def REG_WEEKDAY : Nat := 0x03
def REG_MINUTES_ALARM : Nat := 0x07
def REG_HOURS_ALARM : Nat := 0x08
def REG_WEEKDAY_DATE_ALARM : Nat := 0x09
def REG_STATUS : Nat := 0x0E
def REG_CONTROL1 : Nat := 0x0F
def REG_UNIX_TIME_0 : Nat := 0x1B
def REG_EEPROM_PASSWORD_ENABLE : Nat := 0x30

/-- `RegControl1Bits::WadaBit = 1 << 5`. -/
def WadaBit : Nat := 1 <<< 5

/-- `RegStatusBits::AlarmFlagBit = 1 << 2`. -/
def AlarmFlagBit : Nat := 1 <<< 2

/-- `ALARM_NO_WATCH_FLAG = 1 << 7`. -/
def ALARM_NO_WATCH_FLAG : Nat := 1 <<< 7

/-- Rust `!bits` on a `u8`: bitwise complement within 8 bits. -/
def u8_not (bits : Nat) : Nat := 255 ^^^ bits

/-- Rust `x as u16` on an `i64`: keep the low 16 bits (two's complement). -/
def i64_as_u16 (x : Int) : Nat := (x % 65536).toNat

/-- `bin_to_bcd`: converts a binary value to BCD format,
`((value / 10) << 4) | (value % 10)`. -/
def bin_to_bcd (value : Nat) : Nat :=
  ((value / 10) <<< 4) ||| (value % 10)

/-- `bcd_to_bin`: converts a BCD value to binary format,
`((value & 0xF0) >> 4) * 10 + (value & 0x0F)`. -/
def bcd_to_bin (value : Nat) : Nat :=
  ((value &&& 0xF0) >>> 4) * 10 + (value &&& 0x0F)

/-! ## Periodic Countdown Timer engine

A `chrono::Duration` is represented by its total length in whole
microseconds (the driver never inspects finer resolution: its finest probe is
`num_microseconds`).  A chrono duration spans up to `i64::MAX` whole
milliseconds, so its microsecond count can overflow an i64:
`num_microseconds` returns `Option<i64>`, `None` on overflow, while the
whole-minute/second/millisecond accessors always succeed and truncate
toward zero, as does Rust's i64 division. -/

inductive TimerClockFreq where
  | Hertz4096
  | Hertz64
  | Hertz1
  | HertzSixtieth
deriving DecidableEq

def MAX_PCT_TICKS : Nat := 0x0FFF
def PCT_MILLIS_PERIOD : Int := 15
def PCT_MICROS_PERIOD : Int := 244
def MAX_PCT_COUNT : Int := 4095
def MAX_PCT_MILLIS : Int := MAX_PCT_COUNT * PCT_MILLIS_PERIOD
def MAX_PCT_MICROS : Int := MAX_PCT_COUNT * PCT_MICROS_PERIOD
def PCT_MILLIS_SECOND_BARRIER : Int := PCT_MILLIS_PERIOD * (1000 / PCT_MILLIS_PERIOD)

/-- A `chrono::Duration`, as the number of whole microseconds it spans. -/
abbrev Duration := Int

def Duration.minutes (m : Int) : Duration := m * 60000000
def Duration.seconds (s : Int) : Duration := s * 1000000
def Duration.milliseconds (ms : Int) : Duration := ms * 1000
def Duration.microseconds (us : Int) : Duration := us

def Duration.num_minutes (d : Duration) : Int := d.tdiv 60000000
def Duration.num_seconds (d : Duration) : Int := d.tdiv 1000000
def Duration.num_milliseconds (d : Duration) : Int := d.tdiv 1000

/-- chrono `num_microseconds() -> Option<i64>`: the total number of whole
microseconds, or `None` when it does not fit in an i64. -/
def Duration.num_microseconds (d : Duration) : Option Int :=
  if -9223372036854775808 ≤ d ∧ d ≤ 9223372036854775807 then some d else none

/-- `pct_ticks_and_rate_for_duration`: calculate the closest clock frequency
and number of ticks to match the requested duration using the Periodic
Countdown Timer.  The source computes
`duration.num_microseconds().unwrap()` before selecting any branch
(lib.rs:1065), so a duration whose microsecond count overflows an i64
panics there: that is the `none` result. -/
def pct_ticks_and_rate_for_duration (duration : Duration) :
    Option (Nat × TimerClockFreq × Duration) :=
  let whole_minutes := duration.num_minutes
  let whole_seconds := duration.num_seconds
  let whole_milliseconds := duration.num_milliseconds
  let frac_milliseconds := whole_milliseconds.tmod 1000
  let infrac_milliseconds := whole_milliseconds.tmod PCT_MILLIS_PERIOD
  match duration.num_microseconds with
  | none => none
  | some whole_microseconds =>
    some (
      if whole_minutes ≥ MAX_PCT_COUNT then
        (MAX_PCT_TICKS, TimerClockFreq.HertzSixtieth, Duration.minutes MAX_PCT_COUNT)
      else if whole_seconds > MAX_PCT_COUNT then
        let ticks := whole_minutes
        (i64_as_u16 ticks, TimerClockFreq.HertzSixtieth, Duration.minutes ticks)
      else if (whole_milliseconds > MAX_PCT_MILLIS) ∨
          ((0 = frac_milliseconds) ∧ (whole_milliseconds > PCT_MILLIS_SECOND_BARRIER)) then
        let ticks := whole_seconds
        (i64_as_u16 ticks, TimerClockFreq.Hertz1, Duration.seconds ticks)
      else if (whole_microseconds > MAX_PCT_MICROS) ∨
          ((0 = infrac_milliseconds) ∧ (whole_milliseconds ≥ PCT_MILLIS_PERIOD)) then
        let ticks := whole_milliseconds.tdiv PCT_MILLIS_PERIOD
        (i64_as_u16 ticks, TimerClockFreq.Hertz64,
          Duration.milliseconds (ticks * PCT_MILLIS_PERIOD))
      else
        let ticks := whole_microseconds.tdiv PCT_MICROS_PERIOD
        (i64_as_u16 ticks, TimerClockFreq.Hertz4096,
          Duration.microseconds (ticks * PCT_MICROS_PERIOD)))

/-! ## Register bit primitives

Registers are 8-bit; a register value is a `Nat` below 256.  The
read-modify-write helpers of the driver become pure functions from the
current register value to the written value. -/

/-- `clear_reg_bits_raw`: read the register, `reg_val &= !(bits)`, write
back. -/
def clear_reg_bits_raw (reg_val bits : Nat) : Nat := reg_val &&& u8_not bits

/-- `set_reg_bits_raw`: read the register, `reg_val |= bits`, write back. -/
def set_reg_bits_raw (reg_val bits : Nat) : Nat := reg_val ||| bits

/-- `set_or_clear_reg_bits_raw`: set the given bits when `set` is true,
clear them otherwise. -/
def set_or_clear_reg_bits_raw (reg_val bits : Nat) (set : Bool) : Nat :=
  if set then set_reg_bits_raw reg_val bits else clear_reg_bits_raw reg_val bits

/-- Outcome of `check_and_clear_bits` on one register: the returned masked
pre-clear value, the register value afterwards, and whether a write
transaction was issued to the register. -/
structure CheckClearResult where
  ret : Nat
  reg : Nat
  wrote : Bool
deriving DecidableEq

/-- `check_and_clear_bits`: read the register, mask; if any masked bit is
set, clear exactly those bits with `clear_reg_bits_raw`; return the
pre-clear masked value. -/
def check_and_clear_bits (reg_val bits : Nat) : CheckClearResult :=
  let bits_val := reg_val &&& bits
  if 0 ≠ bits_val then
    { ret := bits_val, reg := clear_reg_bits_raw reg_val bits, wrote := true }
  else
    { ret := bits_val, reg := reg_val, wrote := false }

set_option maxRecDepth 10000 in
/-- For 8-bit masks, the complement of a mask has no bit in common with
the mask. -/
theorem u8_not_land_eq_zero : ∀ m < 256, u8_not m &&& m = 0 := by
  decide

/-! ## Alarm engine

`set_alarm` and `get_alarm_datetime_wday_matches` touch five registers;
their state is carried explicitly.  chrono's `NaiveDateTime` is embedded by
the accessors the driver reads (`timestamp`, date and time fields, with
`weekday` the `Weekday as u8` encoding, 0 = Monday); chrono guarantees
`1 ≤ month ≤ 12`, `1 ≤ day ≤ 31`, `hour < 24`, `minute < 60` for any value
it constructs. -/

structure NaiveDateTime where
  timestamp : Int
  year : Int
  month : Nat
  day : Nat
  weekday : Nat
  hour : Nat
  minute : Nat
  second : Nat
deriving DecidableEq

/-- The registers read or written by the alarm engine. -/
structure AlarmRegs where
  status : Nat
  control1 : Nat
  minutes_alarm : Nat
  hours_alarm : Nat
  weekday_date_alarm : Nat
deriving DecidableEq

/-- `set_alarm`: clear AF, choose weekday or date alarm via the WADA bit
(set when no weekday is given), write the three BCD alarm registers with
the no-watch flag on each field whose match is disabled, clear AF again. -/
def set_alarm (s : AlarmRegs) (datetime : NaiveDateTime) (weekday : Option Nat)
    (match_day match_hour match_minute : Bool) : AlarmRegs :=
  let s := { s with status := clear_reg_bits_raw s.status AlarmFlagBit }
  let s := { s with control1 :=
    set_or_clear_reg_bits_raw s.control1 WadaBit (!weekday.isSome) }
  let bcd_minute := bin_to_bcd datetime.minute
  let s := { s with minutes_alarm :=
    if match_minute then bcd_minute else ALARM_NO_WATCH_FLAG ||| bcd_minute }
  let bcd_hour := bin_to_bcd datetime.hour
  let s := { s with hours_alarm :=
    if match_hour then bcd_hour else ALARM_NO_WATCH_FLAG ||| bcd_hour }
  let s :=
    match weekday with
    | some inner_weekday =>
      let bcd_weekday := bin_to_bcd inner_weekday
      { s with weekday_date_alarm :=
        if match_day then bcd_weekday else ALARM_NO_WATCH_FLAG ||| bcd_weekday }
    | none =>
      let bcd_day := bin_to_bcd datetime.day
      { s with weekday_date_alarm :=
        if match_day then bcd_day else ALARM_NO_WATCH_FLAG ||| bcd_day }
  { s with status := clear_reg_bits_raw s.status AlarmFlagBit }

/-- `check_alarm_flag`: whether the Alarm Flag (AF) is set. -/
def check_alarm_flag (s : AlarmRegs) : Bool := !(0 == s.status &&& AlarmFlagBit)

/-- A civil time produced by the alarm decoder, as chrono exposes it after
`UNIX_EPOCH.with_day(..).with_hour(..).with_minute(..)`. -/
structure AlarmTime where
  day : Nat
  hour : Nat
  minute : Nat
deriving DecidableEq

/-- chrono `NaiveDateTime::UNIX_EPOCH`: 1970-01-01 00:00:00. -/
def UNIX_EPOCH : AlarmTime := { day := 1, hour := 0, minute := 0 }

/-- chrono `Weekday::try_from(u8)`: defined for 0 through 6, errors
otherwise. -/
def weekday_try_from (v : Nat) : Option Nat :=
  if v ≤ 6 then some v else none

/-- chrono `with_hour`: `None` unless `hour ≤ 23`. -/
def with_hour (t : AlarmTime) (hour : Nat) : Option AlarmTime :=
  if hour ≤ 23 then some { t with hour := hour } else none

/-- chrono `with_minute`: `None` unless `minute ≤ 59`. -/
def with_minute (t : AlarmTime) (minute : Nat) : Option AlarmTime :=
  if minute ≤ 59 then some { t with minute := minute } else none

/-- chrono `with_day` on the epoch datetime (January 1970, a 31-day month):
`None` unless `1 ≤ day ≤ 31`. -/
def with_day (t : AlarmTime) (day : Nat) : Option AlarmTime :=
  if 1 ≤ day ∧ day ≤ 31 then some { t with day := day } else none

/-- What `get_alarm_datetime_wday_matches` returns on success. -/
structure AlarmReadout where
  dt : AlarmTime
  weekday : Option Nat
  match_day : Bool
  match_hour : Bool
  match_minutes : Bool
deriving DecidableEq

/-- `get_alarm_datetime_wday_matches`: decode the three alarm registers and
the WADA bit; `none` models a panic of one of the source's `unwrap` calls. -/
def get_alarm_datetime_wday_matches (s : AlarmRegs) : Option AlarmReadout :=
  let raw_day := s.weekday_date_alarm
  let match_day := 0 == raw_day &&& ALARM_NO_WATCH_FLAG
  let day := bcd_to_bin (0x7F &&& raw_day)
  let raw_hour := s.hours_alarm
  let match_hour := 0 == raw_hour &&& ALARM_NO_WATCH_FLAG
  let hour := bcd_to_bin (0x7F &&& raw_hour)
  let raw_minutes := s.minutes_alarm
  let match_minutes := 0 == raw_minutes &&& ALARM_NO_WATCH_FLAG
  let minutes := bcd_to_bin (0x7F &&& raw_minutes)
  let wada_state := s.control1 &&& WadaBit
  if 0 = wada_state then
    match weekday_try_from day with
    | none => none
    | some w =>
      match with_hour UNIX_EPOCH hour with
      | none => none
      | some t1 =>
        match with_minute t1 minutes with
        | none => none
        | some t2 =>
          some { dt := t2, weekday := some w, match_day := match_day,
                 match_hour := match_hour, match_minutes := match_minutes }
  else
    match with_day UNIX_EPOCH day with
    | none => none
    | some t1 =>
      match with_hour t1 hour with
      | none => none
      | some t2 =>
        match with_minute t2 minutes with
        | none => none
        | some t3 =>
          some { dt := t3, weekday := none, match_day := match_day,
                 match_hour := match_hour, match_minutes := match_minutes }

end RV3028

namespace RV3028

/-- C1: for all `v` in `0..99`, `bcd_to_bin (bin_to_bcd v) = v`. -/
theorem c1_bcd_roundtrip (v : Nat) (hv : v < 100) :
    bcd_to_bin (bin_to_bcd v) = v := by
  revert v
  decide

/-- Witness for C1 at `v = 59`. -/
theorem c1_bcd_roundtrip_witness :
    59 < 100 ∧ bcd_to_bin (bin_to_bcd 59) = 59 :=
  ⟨by decide, c1_bcd_roundtrip 59 (by decide)⟩

/-- C2: requesting a duration of exactly `N` whole seconds, `1 ≤ N ≤ 4095`,
selects the 1 Hz clock with `ticks = N` and an achievable duration equal to
the request (zero discretization error).  Such a duration has at most
4095 × 10⁶ microseconds, so the `num_microseconds().unwrap()` succeeds. -/
theorem c2_pct_whole_seconds (N : Int) (h1 : 1 ≤ N) (h2 : N ≤ 4095) :
    pct_ticks_and_rate_for_duration (Duration.seconds N) =
      some (N.toNat, TimerClockFreq.Hertz1, Duration.seconds N) := by
  have hN0 : (0 : Int) ≤ N := by omega
  have hsec : (N * 1000000).tdiv 1000000 = N := by
    rw [Int.tdiv_eq_ediv (by positivity) (by norm_num)]
    exact Int.mul_ediv_cancel N (by norm_num)
  have hmin : (N * 1000000).tdiv 60000000 = (N * 1000000) / 60000000 :=
    Int.tdiv_eq_ediv (by positivity) (by norm_num)
  have hms : (N * 1000000).tdiv 1000 = N * 1000 := by
    rw [Int.tdiv_eq_ediv (by positivity) (by norm_num)]
    omega
  have hfrac : ((N * 1000000).tdiv 1000).tmod 1000 = 0 := by
    rw [hms, Int.tmod_eq_emod (by positivity) (by norm_num)]
    omega
  have hcond : -9223372036854775808 ≤ N * 1000000 ∧
      N * 1000000 ≤ 9223372036854775807 := ⟨by omega, by omega⟩
  have hmu : Duration.num_microseconds (N * 1000000) = some (N * 1000000) := by
    simp only [Duration.num_microseconds]
    rw [if_pos hcond]
  simp only [pct_ticks_and_rate_for_duration, Duration.seconds, Duration.num_minutes,
    Duration.num_seconds, Duration.num_milliseconds, hmu,
    Duration.minutes, Duration.milliseconds, Duration.microseconds,
    MAX_PCT_COUNT, MAX_PCT_TICKS, MAX_PCT_MILLIS, MAX_PCT_MICROS,
    PCT_MILLIS_PERIOD, PCT_MICROS_PERIOD, PCT_MILLIS_SECOND_BARRIER]
  rw [if_neg (by omega), if_neg (by omega), if_pos (by omega)]
  rw [hsec]
  simp only [i64_as_u16]
  have hmod : N % 65536 = N := by omega
  rw [hmod]

/-- Witness for C2 at `N = 42`. -/
theorem c2_pct_whole_seconds_witness :
    (1 : Int) ≤ 42 ∧ (42 : Int) ≤ 4095 ∧
      pct_ticks_and_rate_for_duration (Duration.seconds 42) =
        some ((42 : Int).toNat, TimerClockFreq.Hertz1, Duration.seconds 42) :=
  ⟨by decide, by decide, c2_pct_whole_seconds 42 (by decide) (by decide)⟩

/-- C3 counterexample: `Duration::seconds(10^13)` spans 10¹⁹ microseconds,
which overflows an i64, so although its whole-minute count far exceeds
4095 the source panics at `num_microseconds().unwrap()` (lib.rs:1065) and
returns nothing — the claimed saturation tuple is never produced. -/
theorem c3_pct_overflow_counterexample :
    (Duration.seconds 10000000000000).num_minutes ≥ 4095 ∧
    pct_ticks_and_rate_for_duration (Duration.seconds 10000000000000) = none :=
  ⟨by decide, by decide⟩

/-- C3 (amended): any request whose number of whole minutes is at least
4095 and whose total microseconds fit in an i64 (so the
`num_microseconds().unwrap()` succeeds) saturates to 4095 ticks at
1/60 Hz, with an achievable duration of exactly 4095 minutes. -/
theorem c3_pct_saturation_in_i64 (d : Duration) (h : d.num_minutes ≥ 4095)
    (hlo : -9223372036854775808 ≤ d) (hhi : d ≤ 9223372036854775807) :
    pct_ticks_and_rate_for_duration d =
      some (4095, TimerClockFreq.HertzSixtieth, Duration.minutes 4095) := by
  have hmu : d.num_microseconds = some d := by
    simp only [Duration.num_microseconds]
    rw [if_pos ⟨hlo, hhi⟩]
  simp only [pct_ticks_and_rate_for_duration, MAX_PCT_COUNT, MAX_PCT_TICKS, hmu]
  rw [if_pos h]

/-- Witness for C3 at a duration of 5000 minutes (3 × 10¹¹ microseconds,
comfortably inside the i64 range). -/
theorem c3_pct_saturation_in_i64_witness :
    (Duration.minutes 5000).num_minutes ≥ 4095 ∧
    -9223372036854775808 ≤ Duration.minutes 5000 ∧
    Duration.minutes 5000 ≤ 9223372036854775807 ∧
    pct_ticks_and_rate_for_duration (Duration.minutes 5000) =
      some (4095, TimerClockFreq.HertzSixtieth, Duration.minutes 4095) :=
  ⟨by decide, by decide, by decide,
   c3_pct_saturation_in_i64 (Duration.minutes 5000) (by decide) (by decide) (by decide)⟩

/-- C5: `check_and_clear_bits` returns the pre-clear value of the register
masked with the given mask; afterwards the masked bits are zero and the
other bits are unchanged; and if no masked bit was set, no write to the
register is performed. -/
theorem c5_check_and_clear_frame (v m : Nat) (hv : v < 256) (hm : m < 256) :
    (check_and_clear_bits v m).ret = v &&& m ∧
    (check_and_clear_bits v m).reg &&& m = 0 ∧
    (check_and_clear_bits v m).reg &&& u8_not m = v &&& u8_not m ∧
    (v &&& m = 0 → (check_and_clear_bits v m).wrote = false) := by
  have hnm : u8_not m &&& m = 0 := u8_not_land_eq_zero m hm
  have hni : u8_not m &&& u8_not m = u8_not m := by simp
  by_cases h : (0 : Nat) ≠ v &&& m
  · have e : check_and_clear_bits v m =
        { ret := v &&& m, reg := v &&& u8_not m, wrote := true } := by
      simp only [check_and_clear_bits, clear_reg_bits_raw]
      rw [if_pos h]
    rw [e]
    refine ⟨rfl, ?_, ?_, fun hz => absurd hz.symm h⟩
    · show (v &&& u8_not m) &&& m = 0
      rw [Nat.land_assoc, hnm, Nat.and_zero]
    · show (v &&& u8_not m) &&& u8_not m = v &&& u8_not m
      rw [Nat.land_assoc, hni]
  · have h0 : 0 = v &&& m := not_not.mp h
    have e : check_and_clear_bits v m = { ret := v &&& m, reg := v, wrote := false } := by
      simp only [check_and_clear_bits, clear_reg_bits_raw]
      rw [if_neg h]
    rw [e]
    exact ⟨rfl, h0.symm, rfl, fun _ => rfl⟩

/-- Witness for C5 at register value 0b10100101 and mask 0b00001100. -/
theorem c5_check_and_clear_frame_witness :
    165 < 256 ∧ 12 < 256 ∧
      ((check_and_clear_bits 165 12).ret = 165 &&& 12 ∧
       (check_and_clear_bits 165 12).reg &&& 12 = 0 ∧
       (check_and_clear_bits 165 12).reg &&& u8_not 12 = 165 &&& u8_not 12 ∧
       (165 &&& 12 = 0 → (check_and_clear_bits 165 12).wrote = false)) :=
  ⟨by decide, by decide, c5_check_and_clear_frame 165 12 (by decide) (by decide)⟩

set_option maxRecDepth 10000 in
/-- A BCD alarm field round-trips through the no-watch-flag encoding: the
flag bit decodes back to the match flag, `0x7F`-masking and BCD-decoding
recover the field value.  This needs `v < 80`: the BCD image of 80–99 would
collide with the no-watch bit (all alarm fields are at most 59). -/
theorem alarm_field_roundtrip :
    ∀ v < 80, ∀ b : Bool,
      (0 == (if b then bin_to_bcd v else ALARM_NO_WATCH_FLAG ||| bin_to_bcd v) &&&
          ALARM_NO_WATCH_FLAG) = b ∧
        bcd_to_bin
          (0x7F &&& (if b then bin_to_bcd v else ALARM_NO_WATCH_FLAG ||| bin_to_bcd v)) = v := by
  decide

set_option maxRecDepth 10000 in
/-- Setting the WADA bit in any 8-bit control register leaves it set. -/
theorem wada_set_land :
    ∀ c < 256, set_or_clear_reg_bits_raw c WadaBit true &&& WadaBit = 32 := by
  decide

set_option maxRecDepth 10000 in
/-- Clearing the WADA bit in any 8-bit control register leaves it clear. -/
theorem wada_clear_land :
    ∀ c < 256, set_or_clear_reg_bits_raw c WadaBit false &&& WadaBit = 0 := by
  decide

set_option maxRecDepth 10000 in
/-- Clearing the alarm flag in any 8-bit status register leaves it clear. -/
theorem af_clear_land :
    ∀ st < 256, clear_reg_bits_raw st AlarmFlagBit &&& AlarmFlagBit = 0 := by
  decide

/-- C6: for any valid alarm configuration, `set_alarm` followed by
`get_alarm_datetime_wday_matches` reproduces the match flags, the
minute/hour and weekday-or-day field values and the weekday-versus-date
mode, and the alarm-fired flag is false immediately after `set_alarm`. -/
theorem c6_alarm_roundtrip (s : AlarmRegs) (dt : NaiveDateTime)
    (weekday : Option Nat) (match_day match_hour match_minute : Bool)
    (hst : s.status < 256) (hc1 : s.control1 < 256)
    (hminute : dt.minute ≤ 59) (hhour : dt.hour ≤ 23)
    (hwd : ∀ w, weekday = some w → w ≤ 6)
    (hd1 : 1 ≤ dt.day) (hd31 : dt.day ≤ 31) :
    get_alarm_datetime_wday_matches
        (set_alarm s dt weekday match_day match_hour match_minute) =
      some { dt := { day := (match weekday with | some _ => 1 | none => dt.day),
                     hour := dt.hour, minute := dt.minute },
             weekday := weekday, match_day := match_day,
             match_hour := match_hour, match_minutes := match_minute } ∧
    check_alarm_flag
        (set_alarm s dt weekday match_day match_hour match_minute) = false := by
  have hhourm := alarm_field_roundtrip dt.hour (by omega) match_hour
  have hminm := alarm_field_roundtrip dt.minute (by omega) match_minute
  have hafb : clear_reg_bits_raw s.status AlarmFlagBit < 256 :=
    Nat.lt_of_le_of_lt Nat.and_le_left hst
  have haf := af_clear_land (clear_reg_bits_raw s.status AlarmFlagBit) hafb
  cases weekday with
  | some w =>
    have hw6 : w ≤ 6 := hwd w rfl
    have hdaym := alarm_field_roundtrip w (by omega) match_day
    simp only [set_alarm, get_alarm_datetime_wday_matches, check_alarm_flag,
      Option.isSome_some, Bool.not_true]
    rw [wada_clear_land s.control1 hc1]
    rw [if_pos rfl]
    rw [hdaym.2, hhourm.2, hminm.2, hdaym.1, hhourm.1, hminm.1]
    have htf : weekday_try_from w = some w := by
      simp only [weekday_try_from]
      rw [if_pos hw6]
    have hh : with_hour UNIX_EPOCH dt.hour = some { UNIX_EPOCH with hour := dt.hour } := by
      simp only [with_hour]
      rw [if_pos hhour]
    have hm : with_minute { UNIX_EPOCH with hour := dt.hour } dt.minute =
        some { UNIX_EPOCH with hour := dt.hour, minute := dt.minute } := by
      simp only [with_minute]
      rw [if_pos hminute]
    simp only [htf, hh, hm, haf]
    refine ⟨?_, ?_⟩ <;> first | rfl | trivial
  | none =>
    have hdaym := alarm_field_roundtrip dt.day (by omega) match_day
    simp only [set_alarm, get_alarm_datetime_wday_matches, check_alarm_flag,
      Option.isSome_none, Bool.not_false]
    rw [wada_set_land s.control1 hc1]
    rw [if_neg (by omega)]
    rw [hdaym.2, hhourm.2, hminm.2, hdaym.1, hhourm.1, hminm.1]
    have hd : with_day UNIX_EPOCH dt.day = some { UNIX_EPOCH with day := dt.day } := by
      simp only [with_day]
      rw [if_pos ⟨hd1, hd31⟩]
    have hh : with_hour { UNIX_EPOCH with day := dt.day } dt.hour =
        some { UNIX_EPOCH with day := dt.day, hour := dt.hour } := by
      simp only [with_hour]
      rw [if_pos hhour]
    have hm : with_minute { UNIX_EPOCH with day := dt.day, hour := dt.hour } dt.minute =
        some { UNIX_EPOCH with day := dt.day, hour := dt.hour, minute := dt.minute } := by
      simp only [with_minute]
      rw [if_pos hminute]
    simp only [hd, hh, hm, haf]
    refine ⟨?_, ?_⟩ <;> first | rfl | trivial

/-- Witness for C6: a date alarm for day 15, 12:34, on a register file with
every bit initially set. -/
theorem c6_alarm_roundtrip_witness :
    (255 : Nat) < 256 ∧ (255 : Nat) < 256 ∧ (34 : Nat) ≤ 59 ∧ (12 : Nat) ≤ 23 ∧
    (1 : Nat) ≤ 15 ∧ (15 : Nat) ≤ 31 ∧
    (get_alarm_datetime_wday_matches
        (set_alarm ⟨255, 255, 0, 0, 0⟩ ⟨1615811696, 2021, 3, 15, 0, 12, 34, 56⟩
          none true false true) =
      some { dt := { day := 15, hour := 12, minute := 34 },
             weekday := none, match_day := true, match_hour := false,
             match_minutes := true } ∧
     check_alarm_flag
        (set_alarm ⟨255, 255, 0, 0, 0⟩ ⟨1615811696, 2021, 3, 15, 0, 12, 34, 56⟩
          none true false true) = false) :=
  ⟨by decide, by decide, by decide, by decide, by decide, by decide,
   c6_alarm_roundtrip ⟨255, 255, 0, 0, 0⟩ ⟨1615811696, 2021, 3, 15, 0, 12, 34, 56⟩
     none true false true (by decide) (by decide) (by decide) (by decide)
     (fun w h => nomatch h) (by decide) (by decide)⟩

/-- C10: `get_alarm_datetime_wday_matches` hits an `unwrap` panic (modelled
as `none`, not an error return) whenever the WADA bit is clear and the
stored weekday field decodes above 6, or the WADA bit is set and the stored
day field decodes to 0 or above 31. -/
theorem c10_get_alarm_unwrap_panics (s : AlarmRegs) :
    (s.control1 &&& WadaBit = 0 →
      6 < bcd_to_bin (0x7F &&& s.weekday_date_alarm) →
      get_alarm_datetime_wday_matches s = none) ∧
    (s.control1 &&& WadaBit ≠ 0 →
      (bcd_to_bin (0x7F &&& s.weekday_date_alarm) = 0 ∨
        31 < bcd_to_bin (0x7F &&& s.weekday_date_alarm)) →
      get_alarm_datetime_wday_matches s = none) := by
  constructor
  · intro hw hday
    simp only [get_alarm_datetime_wday_matches]
    rw [if_pos hw.symm]
    have hn : weekday_try_from (bcd_to_bin (0x7F &&& s.weekday_date_alarm)) = none := by
      simp only [weekday_try_from]
      rw [if_neg (by omega)]
    rw [hn]
  · intro hw hday
    simp only [get_alarm_datetime_wday_matches]
    rw [if_neg (fun h => hw h.symm)]
    have hn : with_day UNIX_EPOCH (bcd_to_bin (0x7F &&& s.weekday_date_alarm)) = none := by
      simp only [with_day]
      rw [if_neg (by omega)]
    rw [hn]

/-- Witness for C10: weekday mode with a stored field decoding to 7
(BCD `0x07`): the decode panics. -/
theorem c10_get_alarm_unwrap_panics_witness :
    (⟨0, 0, 0, 0, 7⟩ : AlarmRegs).control1 &&& WadaBit = 0 ∧
    6 < bcd_to_bin (0x7F &&& (⟨0, 0, 0, 0, 7⟩ : AlarmRegs).weekday_date_alarm) ∧
    get_alarm_datetime_wday_matches ⟨0, 0, 0, 0, 7⟩ = none :=
  ⟨by decide, by decide,
   (c10_get_alarm_unwrap_panics ⟨0, 0, 0, 0, 7⟩).1 (by decide) (by decide)⟩

/-! ## Write protection

The password-enable (EEPW) register is itself write-protected: per the
spec, a write attempted while the device is still locked with a wrong
current password is a silent no-op.  `WpDevice` models that device-side
behavior (it is hardware behavior, not code under `src/`); the driver logic
of `toggle_write_protect_enabled` is translated from the source. -/

/-- The device-side state of the password-enable register. -/
structure WpDevice where
  pw_enable : Nat
  locked : Bool
deriving DecidableEq

/-- Modelled from the spec: a register write on a locked device is silently
ignored; on an unlocked device it stores the byte. -/
def wp_device_write (d : WpDevice) (v : Nat) : WpDevice :=
  if d.locked then d else { d with pw_enable := v }

/-- `toggle_write_protect_enabled`: write 255 (enable) or 0 (disable) to
`REG_EEPROM_PASSWORD_ENABLE`, read the register back, return whether the
read-back equals 255. -/
def toggle_write_protect_enabled (d : WpDevice) (enable : Bool) : WpDevice × Bool :=
  let d2 := wp_device_write d (if enable then 255 else 0)
  (d2, d2.pw_enable == 255)

/-- C7: the result of `toggle_write_protect_enabled` is computed from the
read-back register value, not from the requested value: when the device is
unlocked the written byte (255 or 0) lands in the register, and when the
device is locked the write is a silent no-op and the returned flag reflects
the unchanged register. -/
theorem c7_toggle_write_protect_readback (d : WpDevice) (enable : Bool) :
    (toggle_write_protect_enabled d enable).2 =
      ((toggle_write_protect_enabled d enable).1.pw_enable == 255) ∧
    (d.locked = false →
      (toggle_write_protect_enabled d enable).1.pw_enable =
        if enable then 255 else 0) ∧
    (d.locked = true →
      (toggle_write_protect_enabled d enable).1 = d ∧
      (toggle_write_protect_enabled d enable).2 = (d.pw_enable == 255)) := by
  rcases d with ⟨pw, lk⟩
  cases lk <;> cases enable <;>
    simp [toggle_write_protect_enabled, wp_device_write]

/-- Witness for C7: enabling write protection on a locked device whose
register holds 0 — the write silently fails and the call reports `false`
although `enable` was requested. -/
theorem c7_toggle_write_protect_readback_witness :
    (toggle_write_protect_enabled ⟨0, true⟩ true).2 =
      ((toggle_write_protect_enabled ⟨0, true⟩ true).1.pw_enable == 255) ∧
    ((⟨0, true⟩ : WpDevice).locked = false →
      (toggle_write_protect_enabled ⟨0, true⟩ true).1.pw_enable =
        if true then 255 else 0) ∧
    ((⟨0, true⟩ : WpDevice).locked = true →
      (toggle_write_protect_enabled ⟨0, true⟩ true).1 = ⟨0, true⟩ ∧
      (toggle_write_protect_enabled ⟨0, true⟩ true).2 =
        ((⟨0, true⟩ : WpDevice).pw_enable == 255)) :=
  c7_toggle_write_protect_readback ⟨0, true⟩ true

/-! ## `set_datetime` and its bus trace -/

/-- One i2c write transaction: the target device address and the bytes
sent (first byte selects the starting register). -/
structure I2cWrite where
  addr : Nat
  bytes : List Nat
deriving DecidableEq

/-- A driver handle: `RV3028 { mux_addr, mux_chan }` (mux address 0 means
no mux). -/
structure Rv3028Config where
  mux_addr : Nat
  mux_chan : Nat
deriving DecidableEq

/-- `select_mux_channel`: when a mux is configured, one write of the
channel byte to the mux address; otherwise no traffic. -/
def select_mux_channel (c : Rv3028Config) : List I2cWrite :=
  if c.mux_addr ≠ 0 then [⟨c.mux_addr, [c.mux_chan]⟩] else []

/-- `set_unix_time_raw`: one 5-byte write of `REG_UNIX_TIME_0` followed by
the little-endian bytes of the u32 counter value. -/
def set_unix_time_raw (unix_time : Nat) : I2cWrite :=
  ⟨RV3028_ADDRESS, [REG_UNIX_TIME_0,
    unix_time % 256, unix_time / 256 % 256,
    unix_time / 65536 % 256, unix_time / 16777216 % 256]⟩

/-- `set_time_raw`: one 4-byte write of `REG_SECONDS` followed by BCD
seconds, minutes, hours. -/
def set_time_raw (t : NaiveDateTime) : I2cWrite :=
  ⟨RV3028_ADDRESS, [REG_SECONDS,
    bin_to_bcd t.second, bin_to_bcd t.minute, bin_to_bcd t.hour]⟩

/-- `set_date_raw`: one 5-byte write of `REG_WEEKDAY` followed by BCD
weekday, day, month, year; the fields are reduced exactly as the source
does (`year - 2000` truncated to a byte with 0 for years up to 2000,
`month % 13`, `day % 32`, `weekday % 7`). -/
def set_date_raw (t : NaiveDateTime) : I2cWrite :=
  let year : Nat := if 2000 < t.year then ((t.year - 2000) % 256).toNat else 0
  let month := t.month % 13
  let day := t.day % 32
  let weekday := t.weekday % 7
  ⟨RV3028_ADDRESS, [REG_WEEKDAY,
    bin_to_bcd weekday, bin_to_bcd day, bin_to_bcd month, bin_to_bcd year]⟩

/-- `set_datetime`: `datetime.timestamp().try_into().unwrap()` panics
(modelled as `none`, with no bus transaction issued) unless the timestamp
fits in a u32; otherwise the mux is selected and the Unix counter, the BCD
date registers and the BCD time registers are written, in that order. -/
def set_datetime (c : Rv3028Config) (datetime : NaiveDateTime) :
    Option (List I2cWrite) :=
  if 0 ≤ datetime.timestamp ∧ datetime.timestamp < 4294967296 then
    some (select_mux_channel c ++
      [set_unix_time_raw datetime.timestamp.toNat,
       set_date_raw datetime,
       set_time_raw datetime])
  else
    none

/-- C4: whenever `set_datetime` issues bus writes, they are, in order: the
4-byte Unix time counter (at `REG_UNIX_TIME_0`), then the BCD date
registers (weekday, day, month, year, starting at `REG_WEEKDAY`), then the
BCD time registers (seconds, minutes, hours, starting at `REG_SECONDS`)
last. -/
theorem c4_set_datetime_write_order (c : Rv3028Config) (dt : NaiveDateTime)
    (trace : List I2cWrite) (h : set_datetime c dt = some trace) :
    trace = select_mux_channel c ++
      [set_unix_time_raw dt.timestamp.toNat, set_date_raw dt, set_time_raw dt] := by
  by_cases hf : 0 ≤ dt.timestamp ∧ dt.timestamp < 4294967296
  · simp only [set_datetime] at h
    rw [if_pos hf] at h
    exact (Option.some.injEq _ _ ▸ h).symm
  · simp only [set_datetime] at h
    rw [if_neg hf] at h
    exact absurd h (by simp)

/-- Witness for C4: 2021-03-01T12:00:00Z (Unix 1614600000) on a mux-free
handle. -/
theorem c4_set_datetime_write_order_witness :
    set_datetime ⟨0, 0⟩ ⟨1614600000, 2021, 3, 1, 0, 12, 0, 0⟩ =
      some (select_mux_channel ⟨0, 0⟩ ++
        [set_unix_time_raw (1614600000 : Int).toNat,
         set_date_raw ⟨1614600000, 2021, 3, 1, 0, 12, 0, 0⟩,
         set_time_raw ⟨1614600000, 2021, 3, 1, 0, 12, 0, 0⟩]) ∧
    (select_mux_channel ⟨0, 0⟩ ++
        [set_unix_time_raw (1614600000 : Int).toNat,
         set_date_raw ⟨1614600000, 2021, 3, 1, 0, 12, 0, 0⟩,
         set_time_raw ⟨1614600000, 2021, 3, 1, 0, 12, 0, 0⟩]) =
      select_mux_channel ⟨0, 0⟩ ++
        [set_unix_time_raw (⟨1614600000, 2021, 3, 1, 0, 12, 0, 0⟩ :
            NaiveDateTime).timestamp.toNat,
         set_date_raw ⟨1614600000, 2021, 3, 1, 0, 12, 0, 0⟩,
         set_time_raw ⟨1614600000, 2021, 3, 1, 0, 12, 0, 0⟩] :=
  ⟨by decide,
   c4_set_datetime_write_order ⟨0, 0⟩ ⟨1614600000, 2021, 3, 1, 0, 12, 0, 0⟩ _ (by decide)⟩

/-- C9: `set_datetime` panics (`none`: the failed `unwrap` happens before
any bus transaction) whenever the datetime's Unix timestamp does not fit in
an unsigned 32-bit integer, instead of returning an error. -/
theorem c9_set_datetime_timestamp_panics (c : Rv3028Config) (dt : NaiveDateTime)
    (h : dt.timestamp < 0 ∨ 4294967296 ≤ dt.timestamp) :
    set_datetime c dt = none := by
  simp only [set_datetime]
  rw [if_neg (by omega)]

/-- Witness for C9: 1969-12-31T23:59:59Z has timestamp -1. -/
theorem c9_set_datetime_timestamp_panics_witness :
    ((⟨-1, 1969, 12, 31, 2, 23, 59, 59⟩ : NaiveDateTime).timestamp < 0 ∨
      4294967296 ≤ (⟨-1, 1969, 12, 31, 2, 23, 59, 59⟩ : NaiveDateTime).timestamp) ∧
    set_datetime ⟨0, 0⟩ ⟨-1, 1969, 12, 31, 2, 23, 59, 59⟩ = none :=
  ⟨Or.inl (by decide),
   c9_set_datetime_timestamp_panics ⟨0, 0⟩ ⟨-1, 1969, 12, 31, 2, 23, 59, 59⟩
     (Or.inl (by decide))⟩

/-- C8 counterexample: 1969-12-31T23:59:59Z has year outside 2000-2099, yet
`set_datetime` does not carry on with modulo-wrapped writes: it issues no
write at all (the timestamp `unwrap` panics first). -/
theorem c8_out_of_range_counterexample :
    (⟨-1, 1969, 12, 31, 2, 23, 59, 59⟩ : NaiveDateTime).year < 2000 ∧
    set_datetime ⟨0, 0⟩ ⟨-1, 1969, 12, 31, 2, 23, 59, 59⟩ = none :=
  ⟨by decide, by decide⟩

/-- C8 (amended): for input datetimes whose Unix timestamp fits in a u32,
even with year outside 2000-2099, `set_datetime` does not reject the input;
the month and day fields are wrapped by modulo arithmetic (month % 13,
day % 32) before BCD encoding and written to the device. -/
theorem c8_amended_modulo_wrap (c : Rv3028Config) (dt : NaiveDateTime)
    (h0 : 0 ≤ dt.timestamp) (h32 : dt.timestamp < 4294967296)
    (hyr : dt.year < 2000 ∨ 2099 < dt.year) :
    set_datetime c dt = some (select_mux_channel c ++
      [set_unix_time_raw dt.timestamp.toNat,
       ⟨RV3028_ADDRESS, [REG_WEEKDAY,
          bin_to_bcd (dt.weekday % 7), bin_to_bcd (dt.day % 32),
          bin_to_bcd (dt.month % 13),
          bin_to_bcd (if 2000 < dt.year then ((dt.year - 2000) % 256).toNat else 0)]⟩,
       set_time_raw dt]) := by
  simp only [set_datetime]
  rw [if_pos ⟨h0, h32⟩]
  rfl

/-- Witness for C8 (amended) at 2100-01-01T00:00:00Z (Unix 4102444800,
a Friday). -/
theorem c8_amended_modulo_wrap_witness :
    0 ≤ (⟨4102444800, 2100, 1, 1, 4, 0, 0, 0⟩ : NaiveDateTime).timestamp ∧
    (⟨4102444800, 2100, 1, 1, 4, 0, 0, 0⟩ : NaiveDateTime).timestamp < 4294967296 ∧
    2099 < (⟨4102444800, 2100, 1, 1, 4, 0, 0, 0⟩ : NaiveDateTime).year ∧
    set_datetime ⟨0, 0⟩ ⟨4102444800, 2100, 1, 1, 4, 0, 0, 0⟩ =
      some (select_mux_channel ⟨0, 0⟩ ++
        [set_unix_time_raw (⟨4102444800, 2100, 1, 1, 4, 0, 0, 0⟩ :
            NaiveDateTime).timestamp.toNat,
         ⟨RV3028_ADDRESS, [REG_WEEKDAY,
            bin_to_bcd (4 % 7), bin_to_bcd (1 % 32), bin_to_bcd (1 % 13),
            bin_to_bcd (if 2000 < (2100 : Int) then (((2100 : Int) - 2000) % 256).toNat
              else 0)]⟩,
         set_time_raw ⟨4102444800, 2100, 1, 1, 4, 0, 0, 0⟩]) :=
  ⟨by decide, by decide, by decide,
   c8_amended_modulo_wrap ⟨0, 0⟩ ⟨4102444800, 2100, 1, 1, 4, 0, 0, 0⟩
     (by decide) (by decide) (Or.inr (by decide))⟩

end RV3028
